import Mathlib

/-!
Verification development for the Synapse backend sync/recommendation core.

The definitions below are a shallow embedding of the Python source under
`backend/app`.  Timestamps (ISO-8601 strings parsed to `datetime` in the
source) are modelled as integers; database tables are modelled as lists of
rows; SQLAlchemy `query(...).filter(...).first()` is `List.find?`; in-place
mutation of a fetched row is a positional `List.map` rewrite of the row with
the matching primary key.  The embedding service and the keyword service are
injected as function parameters, mirroring `get_embedding_service` /
`get_keyword_service`.
-/

/-- A row of the `notes` table (`app/models/note.py`, fields as used by
`app/api/sync.py`). -/
structure Note where
  id : String
  user_id : String
  body : String
  importance : Int
  source_url : Option String
  image_path : Option String
  embedding : Option (List ℚ)
  created_at : Int
  updated_at : Int
  deleted_at : Option Int
  server_timestamp : Int
deriving Repr, DecidableEq

/-- A row of the `keywords` table: server-assigned `id`, unique `name`. -/
structure Keyword where
  id : Nat
  name : String
deriving Repr, DecidableEq

/-- A row of the `note_keywords` join table. -/
structure NoteKeyword where
  note_id : String
  keyword_id : Nat
deriving Repr, DecidableEq

/-- A row of the `relations` table. -/
structure Relation where
  id : String
  from_note_id : String
  to_note_id : String
  relation_type : String
  created_at : Int
deriving Repr, DecidableEq

/-- A row of the `reflections` table, addressed by `(user_id, date)`. -/
structure Reflection where
  user_id : String
  date : String
  content : String
  created_at : Int
  updated_at : Int
deriving Repr, DecidableEq

/-- The relational store visible to the sync engine.  `next_keyword_id`
models the server-assigned autoincrementing keyword primary key. -/
structure Store where
  notes : List Note
  relations : List Relation
  reflections : List Reflection
  keywords : List Keyword
  next_keyword_id : Nat
  note_keywords : List NoteKeyword
deriving Repr, DecidableEq

/-- Payload of a note insert/update push item, after the required-field
validation of `process_note_insert` (lines 66-70): `body`, `importance`,
`created_at`, `updated_at` are required, the rest are read with `.get`. -/
structure NotePayload where
  body : String
  importance : Int
  source_url : Option String
  image_path : Option String
  created_at : Int
  updated_at : Int
  deleted_at : Option Int
deriving Repr, DecidableEq

/-- Payload of a relation insert push item (required fields of
`process_relation_insert`). -/
structure RelationPayload where
  from_note_id : String
  to_note_id : String
  relation_type : String
  created_at : Int
deriving Repr, DecidableEq

/-- Payload of a reflection insert/update push item (required fields of
`process_reflection_insert`). -/
structure ReflectionPayload where
  date : String
  content : String
  created_at : Int
  updated_at : Int
deriving Repr, DecidableEq

/-- `db.query(Keyword).filter(Keyword.name == name).first()` followed by
get-or-create (`process_note_insert` lines 131-135).  Returns the store and
the id of the (possibly fresh) keyword row. -/
def get_or_create_keyword (s : Store) (name : String) : Store × Nat :=
  match s.keywords.find? (fun k => k.name == name) with
  | some k => (s, k.id)
  | none =>
      ({ s with keywords := s.keywords ++ [{ id := s.next_keyword_id, name := name }],
                next_keyword_id := s.next_keyword_id + 1 }, s.next_keyword_id)

/-- Keyword-link rebuild of `process_note_insert` (lines 124-139): delete all
`NoteKeyword` rows of the note, then insert one link per extracted name. -/
def update_note_keywords (s : Store) (entity_id : String) (names : List String) : Store :=
  let s0 := { s with note_keywords := s.note_keywords.filter (fun nk => !(nk.note_id == entity_id)) }
  names.foldl
    (fun acc name =>
      let (acc1, kid) := get_or_create_keyword acc name
      { acc1 with note_keywords := acc1.note_keywords ++ [{ note_id := entity_id, keyword_id := kid }] })
    s0

/-- `process_note_insert` (`app/api/sync.py` lines 47-141), after payload
validation.  `embed_svc` models `get_embedding_service().generate_embedding`
(returning `none` on failure), `kw_svc` models
`get_keyword_service().extract_keyword_names(body, top_k=5)`.

The source looks the note up by `Note.id == entity_id` with no user filter.
On `new_updated <= existing.updated_at` it returns with the store untouched
(the push loop still reports the item as success).  Otherwise it overwrites
`body`, `importance`, `source_url`, `image_path`, `embedding`, `updated_at`
and `deleted_at` on the existing row, or inserts a fresh row owned by
`user_id`.

`server_timestamp` — Modelled from the spec: the `Note` model file
(`app/models/note.py`) is not part of the sources here; per the spec every
accepted write sets `server_timestamp = now()` on the affected row, so the
winning paths set it to the injected `now`. -/
def process_note_insert (embed_svc : String → Option (List ℚ)) (kw_svc : String → List String)
    (now : Int) (s : Store) (user_id entity_id : String) (p : NotePayload) : Store :=
  match s.notes.find? (fun n => n.id == entity_id) with
  | some existing =>
      if p.updated_at ≤ existing.updated_at then
        s
      else
        let emb := embed_svc p.body
        let names := kw_svc p.body
        let s1 := { s with notes := s.notes.map (fun n =>
          if n.id == entity_id then
            { n with body := p.body
                     importance := p.importance
                     source_url := p.source_url
                     image_path := p.image_path
                     embedding := emb
                     updated_at := p.updated_at
                     deleted_at := p.deleted_at
                     server_timestamp := now }
          else n) }
        update_note_keywords s1 entity_id names
  | none =>
      let emb := embed_svc p.body
      let names := kw_svc p.body
      let s1 := { s with notes := s.notes ++ [{
        id := entity_id
        user_id := user_id
        body := p.body
        importance := p.importance
        source_url := p.source_url
        image_path := p.image_path
        embedding := emb
        created_at := p.created_at
        updated_at := p.updated_at
        deleted_at := p.deleted_at
        server_timestamp := now }] }
      update_note_keywords s1 entity_id names

/-- `process_note_update` (lines 144-161): literally delegates to
`process_note_insert` (upsert). -/
def process_note_update (embed_svc : String → Option (List ℚ)) (kw_svc : String → List String)
    (now : Int) (s : Store) (user_id entity_id : String) (p : NotePayload) : Store :=
  process_note_insert embed_svc kw_svc now s user_id entity_id p

/-- `process_note_delete` (lines 164-194).  Looks the note up by id AND
owner; missing note is a silent no-op.  Unconditionally soft-deletes:
`deleted_at` becomes the payload value (or server-now when absent) and
`server_timestamp := now` — there is no LWW comparison on this path. -/
def process_note_delete (now : Int) (s : Store) (user_id entity_id : String)
    (p_deleted_at : Option Int) : Store :=
  match s.notes.find? (fun n => n.id == entity_id && n.user_id == user_id) with
  | none => s
  | some _ =>
      { s with notes := s.notes.map (fun n =>
        if n.id == entity_id && n.user_id == user_id then
          { n with deleted_at := some (p_deleted_at.getD now), server_timestamp := now }
        else n) }

/-- `process_relation_insert` (lines 197-239).  Duplicate id is a no-op
success; both endpoint notes must exist and belong to the user, otherwise a
`ValidationError` is raised (modelled as `Except.error`). -/
def process_relation_insert (s : Store) (user_id entity_id : String)
    (p : RelationPayload) : Except String Store :=
  match s.relations.find? (fun r => r.id == entity_id) with
  | some _ => .ok s
  | none =>
      let from_note := s.notes.find? (fun n => n.id == p.from_note_id && n.user_id == user_id)
      let to_note := s.notes.find? (fun n => n.id == p.to_note_id && n.user_id == user_id)
      if from_note.isSome && to_note.isSome then
        .ok { s with relations := s.relations ++ [{
          id := entity_id
          from_note_id := p.from_note_id
          to_note_id := p.to_note_id
          relation_type := p.relation_type
          created_at := p.created_at }] }
      else
        .error "One or both notes not found or do not belong to user"

/-- `process_relation_delete` (lines 242-265): hard delete of the relation
row, only when the from-note is owned by the user; otherwise (or when the
relation is missing) the store is untouched. -/
def process_relation_delete (s : Store) (user_id entity_id : String) : Store :=
  match s.relations.find? (fun r => r.id == entity_id) with
  | none => s
  | some rel =>
      if (s.notes.find? (fun n => n.id == rel.from_note_id && n.user_id == user_id)).isSome then
        { s with relations := s.relations.filter (fun r => !(r.id == entity_id)) }
      else s

/-- `process_reflection_insert` (lines 268-309), after payload validation.
When a reflection for `(user_id, date)` exists, its `content` and
`updated_at` are overwritten unconditionally — there is no LWW comparison on
this path.  Otherwise a fresh row is inserted. -/
def process_reflection_insert (s : Store) (user_id : String) (p : ReflectionPayload) : Store :=
  match s.reflections.find? (fun r => r.user_id == user_id && r.date == p.date) with
  | some _ =>
      { s with reflections := s.reflections.map (fun r =>
        if r.user_id == user_id && r.date == p.date then
          { r with content := p.content, updated_at := p.updated_at }
        else r) }
  | none =>
      { s with reflections := s.reflections ++ [{
        user_id := user_id
        date := p.date
        content := p.content
        created_at := p.created_at
        updated_at := p.updated_at }] }

/-- `process_reflection_delete` (lines 312-335): the date defaults to the
entity id; hard delete of the `(user_id, date)` row when present. -/
def process_reflection_delete (s : Store) (user_id entity_id : String)
    (p_date : Option String) : Store :=
  let date := p_date.getD entity_id
  { s with reflections := s.reflections.filter (fun r =>
      !(r.user_id == user_id && r.date == date)) }

/-- One validated push item, the tagged variant of `(entity_type, operation,
payload)` routed by the dispatch of `push_sync` (lines 369-405). -/
inductive Change where
  | noteInsert (entity_id : String) (p : NotePayload)
  | noteUpdate (entity_id : String) (p : NotePayload)
  | noteDelete (entity_id : String) (p_deleted_at : Option Int)
  | relationInsert (entity_id : String) (p : RelationPayload)
  | relationDelete (entity_id : String)
  | reflectionInsert (entity_id : String) (p : ReflectionPayload)
  | reflectionUpdate (entity_id : String) (p : ReflectionPayload)
  | reflectionDelete (entity_id : String) (p_date : Option String)
deriving Repr, DecidableEq

/-- Per-item processing of the `push_sync` loop (lines 369-437): route the
change to its handler, commit on success, roll the item back on a raised
error.  The returned `Bool` is the per-item `success` flag of
`SyncPushItemResult`.  Of the handlers, only `process_relation_insert` can
raise on a validated payload. -/
def process_change (embed_svc : String → Option (List ℚ)) (kw_svc : String → List String)
    (now : Int) (s : Store) (user_id : String) (c : Change) : Store × Bool :=
  match c with
  | .noteInsert entity_id p => (process_note_insert embed_svc kw_svc now s user_id entity_id p, true)
  | .noteUpdate entity_id p => (process_note_update embed_svc kw_svc now s user_id entity_id p, true)
  | .noteDelete entity_id pd => (process_note_delete now s user_id entity_id pd, true)
  | .relationInsert entity_id p =>
      match process_relation_insert s user_id entity_id p with
      | .ok s1 => (s1, true)
      | .error _ => (s, false)
  | .relationDelete entity_id => (process_relation_delete s user_id entity_id, true)
  | .reflectionInsert _ p => (process_reflection_insert s user_id p, true)
  | .reflectionUpdate _ p => (process_reflection_insert s user_id p, true)
  | .reflectionDelete entity_id pd => (process_reflection_delete s user_id entity_id pd, true)

/-- The `data` field of one pull `Delta`: the entity payload serialized by
`pull_sync` for an upsert, absent (`none` at the `Delta` level) for a
delete. -/
inductive DeltaData where
  | note (id : String) (body : String) (importance : Int)
      (source_url image_path : Option String)
      (created_at updated_at : Int) (deleted_at : Option Int)
  | relation (id from_note_id to_note_id relation_type : String) (created_at : Int)
  | reflection (date content : String) (created_at updated_at : Int)
deriving Repr, DecidableEq

/-- One element of a pull response (`app/schemas/sync.py` `Delta`). -/
structure Delta where
  entity_type : String
  entity_id : String
  operation : String
  data : Option DeltaData
  updated_at : Int
  server_timestamp : Int
deriving Repr, DecidableEq

/-- Response of `pull_sync` (`app/schemas/sync.py` `SyncPullResponse`).
`new_checkpoint` keeps the integer timestamp model of checkpoints. -/
structure PullResponse where
  has_more : Bool
  changes : List Delta
  new_checkpoint : Int
  total_changes : Nat
deriving Repr, DecidableEq

/-- `generate_checkpoint` (`app/api/sync.py` lines 35-44): the current UTC
wall clock, independent of any row. -/
def generate_checkpoint (now : Int) : Int := now

/-- Row-to-delta mapping for notes (`pull_sync` lines 503-528): a set
`deleted_at` yields `operation="delete", data=null`, otherwise an upsert
with the full payload. -/
def note_to_delta (n : Note) : Delta :=
  if n.deleted_at.isSome then
    { entity_type := "note", entity_id := n.id, operation := "delete", data := none,
      updated_at := n.updated_at, server_timestamp := n.server_timestamp }
  else
    { entity_type := "note", entity_id := n.id, operation := "upsert",
      data := some (.note n.id n.body n.importance n.source_url n.image_path
        n.created_at n.updated_at n.deleted_at),
      updated_at := n.updated_at, server_timestamp := n.server_timestamp }

/-- Row-to-delta mapping for relations (`pull_sync` lines 541-555): always an
upsert; `created_at` doubles as `updated_at` and `server_timestamp`. -/
def relation_to_delta (r : Relation) : Delta :=
  { entity_type := "relation", entity_id := r.id, operation := "upsert",
    data := some (.relation r.id r.from_note_id r.to_note_id r.relation_type r.created_at),
    updated_at := r.created_at, server_timestamp := r.created_at }

/-- Row-to-delta mapping for reflections (`pull_sync` lines 564-577): always
an upsert; `updated_at` doubles as `server_timestamp`. -/
def reflection_to_delta (r : Reflection) : Delta :=
  { entity_type := "reflection", entity_id := r.date, operation := "upsert",
    data := some (.reflection r.date r.content r.created_at r.updated_at),
    updated_at := r.updated_at, server_timestamp := r.updated_at }

/-- Checkpoint window test: with a checkpoint, keep rows with a strictly
greater timestamp; a null checkpoint keeps everything. -/
def after_checkpoint (checkpoint : Option Int) (ts : Int) : Bool :=
  match checkpoint with
  | some c => c < ts
  | none => true

/-- The note page of `pull_sync` (lines 497-501): user-owned rows past the
checkpoint, ordered by `server_timestamp` ascending, capped at 100. -/
def pull_notes (s : Store) (user_id : String) (checkpoint : Option Int) : List Note :=
  ((List.insertionSort (fun a b => a.server_timestamp ≤ b.server_timestamp)
    (s.notes.filter (fun n =>
      n.user_id == user_id && after_checkpoint checkpoint n.server_timestamp))).take 100)

/-- The relation page of `pull_sync` (lines 530-539): relations joined to
their from-note to filter on the owner, windowed and ordered by
`created_at` (relations carry no `server_timestamp` column), capped at
100. -/
def pull_relations (s : Store) (user_id : String) (checkpoint : Option Int) : List Relation :=
  ((List.insertionSort (fun a b => a.created_at ≤ b.created_at)
    (s.relations.filter (fun r =>
      (s.notes.find? (fun n => n.id == r.from_note_id && n.user_id == user_id)).isSome
        && after_checkpoint checkpoint r.created_at))).take 100)

/-- The reflection page of `pull_sync` (lines 557-562): user-owned rows
windowed and ordered by `updated_at`, capped at 100. -/
def pull_reflections (s : Store) (user_id : String) (checkpoint : Option Int) : List Reflection :=
  ((List.insertionSort (fun a b => a.updated_at ≤ b.updated_at)
    (s.reflections.filter (fun r =>
      r.user_id == user_id && after_checkpoint checkpoint r.updated_at))).take 100)

/-- `pull_sync` (`app/api/sync.py` lines 457-604).  The three entity pages
are concatenated in note/relation/reflection order; the new checkpoint is
`generate_checkpoint()` — the current wall clock, not a row timestamp; and
`has_more = len(changes) >= 300` (line 590). -/
def pull_sync (s : Store) (user_id : String) (checkpoint : Option Int) (now : Int) :
    PullResponse :=
  let changes := (pull_notes s user_id checkpoint).map note_to_delta
    ++ (pull_relations s user_id checkpoint).map relation_to_delta
    ++ (pull_reflections s user_id checkpoint).map reflection_to_delta
  { has_more := decide (300 ≤ changes.length)
    changes := changes
    new_checkpoint := generate_checkpoint now
    total_changes := changes.length }

/-- One candidate row returned by the pgvector nearest-neighbour query of
`get_recommendations` (`app/services/recommendation.py` lines 197-227),
joined with the candidate note keyword names read in step 3.  The list
order of candidates passed to the scoring loop is the iteration order of
`db.query(Note).filter(Note.id.in_(...))` — the database does not promise
any particular order, so it is an input here. -/
structure Candidate where
  id : String
  body : String
  created_at : Int
  embedding_sim : ℚ
  keywords : List String
deriving Repr, DecidableEq

/-- The target-note data the scoring loop reads. -/
structure TargetInfo where
  created_at : Int
  keywords : List String
deriving Repr, DecidableEq

/-- One element of `RecommendationResult.recommendations`
(`app/schemas/recommendation.py` `RecommendedNote`). -/
structure RecommendedNote where
  note_id : String
  body_preview : String
  score : ℚ
  reason : String
  created_at : Int
  common_keywords : List String
deriving Repr, DecidableEq

/-- `_calculate_keyword_similarity` (lines 36-61): Jaccard similarity over
the two keyword sets, 0 when either list is empty. -/
def calculate_keyword_similarity (target_keywords candidate_keywords : List String) : ℚ :=
  if target_keywords = [] ∨ candidate_keywords = [] then 0
  else if (target_keywords.toFinset ∪ candidate_keywords.toFinset).card = 0 then 0
  else ((target_keywords.toFinset ∩ candidate_keywords.toFinset).card : ℚ) /
    ((target_keywords.toFinset ∪ candidate_keywords.toFinset).card : ℚ)

/-- `_calculate_hybrid_score` (lines 88-111): weights 0.6 / 0.3 / 0.1. -/
def calculate_hybrid_score (embedding_similarity keyword_similarity temporal_score : ℚ) : ℚ :=
  6/10 * embedding_similarity + 3/10 * keyword_similarity + 1/10 * temporal_score

/-- `_generate_recommendation_reason` (lines 113-156): up to three clauses
joined with a pipe separator, with a fallback clause. -/
def generate_recommendation_reason (embedding_sim : ℚ) (temporal_score : ℚ)
    (common_keywords : List String) : String :=
  let reasons : List String :=
    (if 7/10 < embedding_sim then ["내용이 매우 유사합니다"]
     else if 5/10 < embedding_sim then ["관련된 주제를 다룹니다"]
     else [])
    ++ (if 3 ≤ common_keywords.length then
          ["공통 키워드: " ++ String.intercalate ", " (common_keywords.take 3)]
        else if 1 ≤ common_keywords.length then
          ["키워드 \x27" ++ String.intercalate ", " common_keywords ++ "\x27 관련"]
        else [])
    ++ (if 8/10 < temporal_score then ["최근 작성된 메모"] else [])
  let reasons := if reasons = [] then ["유사한 맥락"] else reasons
  String.intercalate " | " reasons

/-- The common-keywords intersection (`get_recommendations` line 275,
`list(set(target) & set(candidate))`); a Python set iterates in an
unspecified order, modelled as target order with duplicates removed. -/
def common_keywords_of (target_keywords candidate_keywords : List String) : List String :=
  target_keywords.dedup.filter (fun k => candidate_keywords.contains k)

/-- Scoring of one candidate, steps 3 of `get_recommendations` (lines
252-292): hybrid score, threshold filter at 0.3, preview and reason
assembly.  `texp` is the temporal-score function `_calculate_temporal_score`
(lines 63-86), `exp(-|Δ| / 86400 / 30)` over the two `created_at` values;
the real exponential is kept abstract as an injected function so that the
development stays executable, with its range `[0, 1]` stated as a
hypothesis where needed. -/
def score_candidate (texp : Int → Int → ℚ) (target : TargetInfo) (c : Candidate) :
    Option RecommendedNote :=
  let embedding_sim := c.embedding_sim
  let keyword_sim := calculate_keyword_similarity target.keywords c.keywords
  let temporal_score := texp target.created_at c.created_at
  let hybrid_score := calculate_hybrid_score embedding_sim keyword_sim temporal_score
  if hybrid_score < 3/10 then none
  else
    let common := common_keywords_of target.keywords c.keywords
    some { note_id := c.id
           body_preview := c.body.take 100
           score := hybrid_score
           reason := generate_recommendation_reason embedding_sim temporal_score common
           created_at := c.created_at
           common_keywords := common }

/-- Steps 3-4 of `get_recommendations` (lines 250-296): score every
candidate, drop the ones under the threshold, then
`recommendations.sort(key=lambda x: x.score, reverse=True)` — Python
`list.sort` is stable, so candidates with equal scores keep their iteration
order — and take the first `k`. -/
def get_recommendations (texp : Int → Int → ℚ) (target : TargetInfo)
    (candidates : List Candidate) (k : Nat) : List RecommendedNote :=
  let recommendations := candidates.filterMap (score_candidate texp target)
  ((List.insertionSort (fun a b => b.score ≤ a.score) recommendations).take k)

/-- Python `str.split("-")` at the character-list level: split into the
(possibly empty) runs between dashes. -/
def split_on_dash : List Char → List (List Char)
  | [] => [[]]
  | c :: t =>
      if c = '-' then [] :: split_on_dash t
      else
        match split_on_dash t with
        | h :: r => (c :: h) :: r
        | [] => [[c]]

/-- Digit-run accumulator for `parse_int_chars`. -/
def digits_to_nat (acc : Nat) : List Char → Option Nat
  | [] => some acc
  | c :: t => if c.isDigit then digits_to_nat (acc * 10 + (c.toNat - 48)) t else none

/-- Python `int(str)`: an optional sign followed by a non-empty digit run
(the whitespace/underscore liberality of CPython is irrelevant to week
keys). -/
def parse_int_chars : List Char → Option Int
  | [] => none
  | c :: t =>
      if c = '-' then
        if t = [] then none else (digits_to_nat 0 t).map (fun n => -(n : Int))
      else if c = '+' then
        if t = [] then none else (digits_to_nat 0 t).map (fun n => (n : Int))
      else (digits_to_nat 0 (c :: t)).map (fun n => (n : Int))

/-- `_parse_week_key` (`app/services/report.py` lines 44-67): split on a
dash into exactly two parts (any other arity raises at tuple unpacking),
parse both parts as integers, and require the week to be in `[1, 53]`; any
raised `ValueError` becomes the "Invalid week key format" error.  The year
is not range-checked. -/
def parse_week_key (week_key : String) : Except String (Int × Int) :=
  match split_on_dash week_key.data with
  | [year_chars, week_chars] =>
      match parse_int_chars year_chars, parse_int_chars week_chars with
      | some year, some week =>
          if 1 ≤ week ∧ week ≤ 53 then .ok (year, week)
          else .error ("Invalid week key format. Expected YYYY-WW, got " ++ week_key)
      | _, _ => .error ("Invalid week key format. Expected YYYY-WW, got " ++ week_key)
  | _ => .error ("Invalid week key format. Expected YYYY-WW, got " ++ week_key)

/-- The route pattern of `get_weekly_report` (`app/api/reports.py` lines
24-28): four digits, a dash, two digits. -/
def week_key_pattern_ok (week_key : String) : Bool :=
  let cs := week_key.toList
  cs.length == 7 && (cs.take 4).all Char.isDigit
    && (cs.drop 4).take 1 == ['-'] && (cs.drop 5).all Char.isDigit

/-! ## Shared concrete fixtures -/

/-- Embedding service stub: generation fails, the note keeps a null
embedding (tolerated by the engine). -/
def no_embed : String → Option (List ℚ) := fun _ => none

/-- Keyword service stub: no keywords extracted. -/
def no_keywords : String → List String := fun _ => []

def empty_store : Store :=
  { notes := [], relations := [], reflections := [], keywords := [],
    next_keyword_id := 0, note_keywords := [] }

def mk_payload (body : String) (updated_at : Int) : NotePayload :=
  { body := body, importance := 1, source_url := none, image_path := none,
    created_at := 36000, updated_at := updated_at, deleted_at := none }

/-- The literal two-device scenario of the spec: v1 at 10:00Z, v2 at 10:30Z,
then v3 at 09:00Z (timestamps as seconds of day). -/
def lww_scenario_store : Store :=
  let s1 := (process_change no_embed no_keywords 1 empty_store "A"
    (.noteInsert "N1" (mk_payload "v1" 36000))).1
  let s2 := (process_change no_embed no_keywords 2 s1 "B"
    (.noteUpdate "N1" (mk_payload "v2" 37800))).1
  (process_change no_embed no_keywords 3 s2 "A"
    (.noteUpdate "N1" (mk_payload "v3" 32400))).1

def lww_scenario_final_body : Option String :=
  (lww_scenario_store.notes.find? (fun n => n.id == "N1")).map (fun n => n.body)

/-! ### Fixtures for the note-upsert LWW claims -/

/-- Witness note: a stored note with `updated_at = 100`. -/
def w1_note : Note :=
  { id := "n", user_id := "u", body := "old", importance := 1, source_url := none,
    image_path := none, embedding := none, created_at := 0, updated_at := 100,
    deleted_at := none, server_timestamp := 0 }

def w1_store : Store := { empty_store with notes := [w1_note] }

/-! ### Fixtures: a soft-deleted note -/

/-- A note stored soft-deleted: content last updated at 10:00 (36000),
deleted at 10:30 (37800). -/
def c2_note : Note :=
  { id := "N2", user_id := "u", body := "x", importance := 1, source_url := none,
    image_path := none, embedding := none, created_at := 32400, updated_at := 36000,
    deleted_at := some 37800, server_timestamp := 4 }

def c2_store : Store := { empty_store with notes := [c2_note] }

/-- Update pushed at 10:15 (36900), between the stored `updated_at` and the
stored `deleted_at`. -/
def c2_payload : NotePayload :=
  { body := "y", importance := 1, source_url := none, image_path := none,
    created_at := 32400, updated_at := 36900, deleted_at := none }

/-! ### Fixtures: a live note for delete scenarios -/

/-- A live stored note whose content was last updated at 36000. -/
def c3_note : Note :=
  { id := "N3", user_id := "u", body := "x", importance := 1, source_url := none,
    image_path := none, embedding := none, created_at := 32400, updated_at := 36000,
    deleted_at := none, server_timestamp := 4 }

def c3_store : Store := { empty_store with notes := [c3_note] }

/-! ### Fixtures: a stored reflection -/

/-- A stored reflection last updated at 79200 (22:00). -/
def c5_reflection : Reflection :=
  { user_id := "u", date := "2025-01-21", content := "old", created_at := 72000,
    updated_at := 79200 }

def c5_store : Store := { empty_store with reflections := [c5_reflection] }

def c5_payload : ReflectionPayload :=
  { date := "2025-01-21", content := "new", created_at := 72000, updated_at := 72000 }

/-! ### Fixtures: a foreign-owned note -/

/-- A note owned by user B. -/
def c4_note_b : Note :=
  { id := "n1", user_id := "B", body := "bobs note", importance := 1, source_url := none,
    image_path := none, embedding := none, created_at := 0, updated_at := 600,
    deleted_at := none, server_timestamp := 1 }

def c4_store : Store := { empty_store with notes := [c4_note_b] }

def c4_payload : NotePayload :=
  { body := "overwritten by A", importance := 2, source_url := none, image_path := none,
    created_at := 0, updated_at := 700, deleted_at := none }

/-! ### Fixtures: pull stores -/

/-- A store holding a single note of user "u" whose `server_timestamp` is
5. -/
def c6_store : Store :=
  { empty_store with notes := [{ c3_note with id := "N6", server_timestamp := 5 }] }

/-- 100 identical live notes of user "u": the note page cap is exactly
saturated while no relation or reflection is returned. -/
def c7_store : Store :=
  { empty_store with notes := List.replicate 100 { c3_note with id := "N7" } }

/-! ### Fixtures: a relation between owned notes -/

/-- Witness fixtures for C8: a relation `r1` between notes owned by
user "u". -/
def c8_note : Note :=
  { id := "m1", user_id := "u", body := "x", importance := 1, source_url := none,
    image_path := none, embedding := none, created_at := 0, updated_at := 0,
    deleted_at := none, server_timestamp := 1 }

def c8_rel : Relation :=
  { id := "r1", from_note_id := "m1", to_note_id := "m1",
    relation_type := "related", created_at := 2 }

def c8_store : Store :=
  { empty_store with notes := [c8_note], relations := [c8_rel] }

/-! ### The ordering claimed by the spec, and recommendation fixtures -/

/-- Codepoint-lexicographic string order, the order Python uses when
comparing note ids; `String.data` exposes the character list. -/
def str_le_spec (a b : String) : Prop :=
  a = b ∨ List.Lex (· < ·) a.data b.data

/-- The ordering CLAIMED by the spec (this is the spec sentence rendered as
a relation, not a definition from the source): score descending, ties by
`created_at` descending (more recent first), then by id ascending. -/
def rec_sort_spec (a b : RecommendedNote) : Prop :=
  b.score < a.score ∨
    (a.score = b.score ∧
      (b.created_at < a.created_at ∨
        (a.created_at = b.created_at ∧ str_le_spec a.note_id b.note_id)))

instance : DecidableRel str_le_spec := fun a b => by
  unfold str_le_spec
  infer_instance

instance : DecidableRel rec_sort_spec := fun a b => by
  unfold rec_sort_spec
  infer_instance

/-- Temporal-score stub: both counterexample candidates share the target's
`created_at` 0, where the source's `exp(-|Δ|/86400/30)` is exactly
`exp(0) = 1`. -/
def texp_const_one : Int → Int → ℚ := fun _ _ => 1

def c9_target : TargetInfo := { created_at := 0, keywords := [] }

/-- Two candidates with identical scores and identical `created_at`,
iterated in id order "b" then "a". -/
def c9_cands : List Candidate :=
  [{ id := "b", body := "x", created_at := 0, embedding_sim := 8/10, keywords := [] },
   { id := "a", body := "y", created_at := 0, embedding_sim := 8/10, keywords := [] }]

/-! ## Theorems -/

theorem find?_map_update {α : Type} (p : α → Bool) (g : α → α)
    (hg : ∀ a, p a = true → p (g a) = true) :
    ∀ (l : List α) {ex : α}, l.find? p = some ex →
      (l.map (fun a => if p a then g a else a)).find? p = some (g ex) := by
  intro l
  induction l with
  | nil => intro ex h; simp [List.find?] at h
  | cons a t ih =>
      intro ex h
      by_cases ha : p a = true
      · rw [List.find?_cons_of_pos _ ha] at h
        cases h
        simp only [List.map_cons, if_pos ha]
        exact List.find?_cons_of_pos _ (hg a ha)
      · rw [List.find?_cons_of_neg _ ha] at h
        simp only [List.map_cons, if_neg ha]
        rw [List.find?_cons_of_neg _ ha]
        exact ih h

theorem get_or_create_keyword_notes (s : Store) (name : String) :
    (get_or_create_keyword s name).1.notes = s.notes := by
  unfold get_or_create_keyword
  cases s.keywords.find? (fun k => k.name == name) <;> rfl

theorem get_or_create_keyword_relations (s : Store) (name : String) :
    (get_or_create_keyword s name).1.relations = s.relations := by
  unfold get_or_create_keyword
  cases s.keywords.find? (fun k => k.name == name) <;> rfl

theorem update_note_keywords_notes (names : List String) :
    ∀ (s : Store) (eid : String), (update_note_keywords s eid names).notes = s.notes := by
  unfold update_note_keywords
  suffices h : ∀ (s : Store) (eid : String),
      (names.foldl (fun acc name =>
        let r := get_or_create_keyword acc name
        { r.1 with note_keywords := r.1.note_keywords ++ [{ note_id := eid, keyword_id := r.2 }] }) s).notes
      = s.notes by
    intro s eid
    exact h _ eid
  induction names with
  | nil => intro s eid; rfl
  | cons a t ih =>
      intro s eid
      rw [List.foldl_cons, ih]
      simp [get_or_create_keyword_notes]

theorem update_note_keywords_relations (names : List String) :
    ∀ (s : Store) (eid : String), (update_note_keywords s eid names).relations = s.relations := by
  unfold update_note_keywords
  suffices h : ∀ (s : Store) (eid : String),
      (names.foldl (fun acc name =>
        let r := get_or_create_keyword acc name
        { r.1 with note_keywords := r.1.note_keywords ++ [{ note_id := eid, keyword_id := r.2 }] }) s).relations
      = s.relations by
    intro s eid
    exact h _ eid
  induction names with
  | nil => intro s eid; rfl
  | cons a t ih =>
      intro s eid
      rw [List.foldl_cons, ih]
      simp [get_or_create_keyword_relations]

/-- C1: for every push of a note insert or update against an existing note,
an incoming `updated_at ≤` the stored one leaves the store unchanged with
the item reported success, while a strictly greater incoming `updated_at`
replaces the stored note body, importance, source_url, image_path and
updated_at (and embedding / deleted_at / server_timestamp) with the payload
values; and in the literal v1/v2/v3 scenario the final stored body is
"v2". -/
theorem C1_note_upsert_lww :
    (∀ (embed_svc : String → Option (List ℚ)) (kw_svc : String → List String)
        (now : Int) (s : Store) (uid nid : String) (p : NotePayload) (ex : Note),
        s.notes.find? (fun n => n.id == nid) = some ex →
        (p.updated_at ≤ ex.updated_at →
          process_change embed_svc kw_svc now s uid (.noteInsert nid p) = (s, true) ∧
          process_change embed_svc kw_svc now s uid (.noteUpdate nid p) = (s, true)) ∧
        (ex.updated_at < p.updated_at →
          (process_change embed_svc kw_svc now s uid (.noteInsert nid p)).1.notes.find?
              (fun n => n.id == nid) =
            some { ex with body := p.body, importance := p.importance,
                           source_url := p.source_url, image_path := p.image_path,
                           embedding := embed_svc p.body, updated_at := p.updated_at,
                           deleted_at := p.deleted_at, server_timestamp := now } ∧
          process_change embed_svc kw_svc now s uid (.noteUpdate nid p) =
            process_change embed_svc kw_svc now s uid (.noteInsert nid p))) ∧
    lww_scenario_final_body = some "v2" := by
  constructor
  · intro es ks now s uid nid p ex h
    constructor
    · intro hle
      have hdrop : process_note_insert es ks now s uid nid p = s := by
        unfold process_note_insert
        rw [h]
        simp [hle]
      constructor <;>
        simp [process_change, process_note_update, hdrop]
    · intro hlt
      have hnle : ¬ p.updated_at ≤ ex.updated_at := not_le.mpr hlt
      constructor
      · show (process_note_insert es ks now s uid nid p).notes.find?
            (fun n => n.id == nid) = _
        have hred : process_note_insert es ks now s uid nid p =
            update_note_keywords
              { s with notes := s.notes.map (fun n =>
                  if n.id == nid then
                    { n with body := p.body, importance := p.importance,
                             source_url := p.source_url, image_path := p.image_path,
                             embedding := es p.body, updated_at := p.updated_at,
                             deleted_at := p.deleted_at, server_timestamp := now }
                  else n) }
              nid (ks p.body) := by
          unfold process_note_insert
          rw [h]
          simp [hnle]
        rw [hred, update_note_keywords_notes]
        exact find?_map_update _
          (fun n => { n with body := p.body, importance := p.importance,
                             source_url := p.source_url, image_path := p.image_path,
                             embedding := es p.body, updated_at := p.updated_at,
                             deleted_at := p.deleted_at, server_timestamp := now })
          (fun a ha => ha) s.notes h
      · rfl
  · decide

theorem C1_note_upsert_lww_witness :
    (mk_payload "x" 50).updated_at ≤ w1_note.updated_at ∧
      process_change no_embed no_keywords 5 w1_store "u"
        (.noteInsert "n" (mk_payload "x" 50)) = (w1_store, true) :=
  ⟨by decide,
    ((C1_note_upsert_lww.1 no_embed no_keywords 5 w1_store "u" "n" (mk_payload "x" 50)
      w1_note (by decide)).1 (by decide)).1⟩

/-- C2 counterexample: the stored note has `deleted_at = 37800` and the
incoming update has `updated_at = 36900 < 37800`, yet the update is NOT
dropped — the code compares against the stored `updated_at` (36000), so the
update wins, overwrites the body and clears `deleted_at` (resurrection),
contradicting the claim that the note stays deleted. -/
theorem C2_deleted_note_counterexample :
    (c2_payload.updated_at < 37800 ∧ c2_note.deleted_at = some 37800) ∧
    ((process_change no_embed no_keywords 9 c2_store "u"
        (.noteUpdate "N2" c2_payload)).1.notes.find? (fun n => n.id == "N2")).map
      (fun n => (n.body, n.deleted_at)) = some ("y", none) := by
  constructor
  · constructor <;> decide
  · decide

/-- C2 amended: for a stored soft-deleted note the LWW comparison of a
subsequent update is against the stored `updated_at`, not `deleted_at`: an
update with `updated_at ≤` stored `updated_at` is dropped with the item
reported success (and a pull maps the row to `operation=delete, data=null`),
while an update with `updated_at >` stored `updated_at` is applied even when
it is below `deleted_at`, setting `deleted_at` to the payload value (null
when absent — resurrection). -/
theorem C2_deleted_note_lww :
    ∀ (embed_svc : String → Option (List ℚ)) (kw_svc : String → List String)
      (now : Int) (s : Store) (uid nid : String) (p : NotePayload) (ex : Note) (d : Int),
      s.notes.find? (fun n => n.id == nid) = some ex →
      ex.deleted_at = some d →
      (p.updated_at ≤ ex.updated_at →
        process_change embed_svc kw_svc now s uid (.noteUpdate nid p) = (s, true) ∧
        (note_to_delta ex).operation = "delete" ∧ (note_to_delta ex).data = none) ∧
      (ex.updated_at < p.updated_at →
        ((process_change embed_svc kw_svc now s uid (.noteUpdate nid p)).1.notes.find?
            (fun n => n.id == nid)).map (fun n => n.deleted_at) = some p.deleted_at) := by
  intro es ks now s uid nid p ex d h hdel
  constructor
  · intro hle
    have hdrop : process_note_insert es ks now s uid nid p = s := by
      unfold process_note_insert
      rw [h]
      simp [hle]
    refine ⟨by simp [process_change, process_note_update, hdrop], ?_, ?_⟩ <;>
      · unfold note_to_delta
        rw [if_pos (by simp [hdel])]
  · intro hlt
    have hnle : ¬ p.updated_at ≤ ex.updated_at := not_le.mpr hlt
    have hred : process_note_insert es ks now s uid nid p =
        update_note_keywords
          { s with notes := s.notes.map (fun n =>
              if n.id == nid then
                { n with body := p.body, importance := p.importance,
                         source_url := p.source_url, image_path := p.image_path,
                         embedding := es p.body, updated_at := p.updated_at,
                         deleted_at := p.deleted_at, server_timestamp := now }
              else n) }
          nid (ks p.body) := by
      unfold process_note_insert
      rw [h]
      simp [hnle]
    show ((process_note_insert es ks now s uid nid p).notes.find?
        (fun n => n.id == nid)).map (fun n => n.deleted_at) = some p.deleted_at
    rw [hred, update_note_keywords_notes]
    rw [find?_map_update _
      (fun n => { n with body := p.body, importance := p.importance,
                         source_url := p.source_url, image_path := p.image_path,
                         embedding := es p.body, updated_at := p.updated_at,
                         deleted_at := p.deleted_at, server_timestamp := now })
      (fun a ha => ha) s.notes h]
    rfl

theorem C2_deleted_note_lww_witness :
    (c2_store.notes.find? (fun n => n.id == "N2") = some c2_note ∧
      c2_note.deleted_at = some 37800 ∧
      (mk_payload "z" 30000).updated_at ≤ c2_note.updated_at) ∧
    process_change no_embed no_keywords 9 c2_store "u"
      (.noteUpdate "N2" (mk_payload "z" 30000)) = (c2_store, true) :=
  ⟨⟨by decide, by decide, by decide⟩,
    ((C2_deleted_note_lww no_embed no_keywords 9 c2_store "u" "N2" (mk_payload "z" 30000)
      c2_note 37800 (by decide) (by decide)).1 (by decide)).1⟩

/-- C3 counterexample: a delete whose incoming timestamp 30000 is ≤ the
stored `updated_at` 36000 is NOT dropped — `process_note_delete` performs no
LWW comparison, so the row's `deleted_at` becomes 30000 and its
`server_timestamp` advances to the server clock (99), contradicting the
claim that both stay unchanged. -/
theorem C3_note_delete_counterexample :
    ((30000 : Int) ≤ c3_note.updated_at ∧ c3_note.deleted_at = none ∧
      c3_note.server_timestamp = 4) ∧
    ((process_note_delete 99 c3_store "u" "N3" (some 30000)).notes.find?
        (fun n => n.id == "N3")).map (fun n => (n.deleted_at, n.server_timestamp)) =
      some (some 30000, 99) := by
  constructor
  · refine ⟨by decide, by decide, by decide⟩
  · decide

/-- C3 amended: `process_note_delete` applies no LWW comparison at all.  A
delete of an existing note owned by the user unconditionally sets the row's
`deleted_at` to the incoming value (or server-now when the payload carries
none) and its `server_timestamp` to server-now, whatever the incoming and
stored timestamps; a delete of a missing or foreign-owned note leaves the
store unchanged; the item is always reported success. -/
theorem C3_note_delete_no_lww :
    (∀ (now : Int) (s : Store) (uid nid : String) (pd : Option Int) (ex : Note),
      s.notes.find? (fun n => n.id == nid && n.user_id == uid) = some ex →
      (process_note_delete now s uid nid pd).notes.find?
          (fun n => n.id == nid && n.user_id == uid) =
        some { ex with deleted_at := some (pd.getD now), server_timestamp := now }) ∧
    (∀ (now : Int) (s : Store) (uid nid : String) (pd : Option Int),
      s.notes.find? (fun n => n.id == nid && n.user_id == uid) = none →
      process_note_delete now s uid nid pd = s) ∧
    (∀ (embed_svc : String → Option (List ℚ)) (kw_svc : String → List String)
       (now : Int) (s : Store) (uid nid : String) (pd : Option Int),
      process_change embed_svc kw_svc now s uid (.noteDelete nid pd) =
        (process_note_delete now s uid nid pd, true)) := by
  refine ⟨?_, ?_, ?_⟩
  · intro now s uid nid pd ex h
    have hred : process_note_delete now s uid nid pd =
        { s with notes := s.notes.map (fun n =>
            if n.id == nid && n.user_id == uid then
              { n with deleted_at := some (pd.getD now), server_timestamp := now }
            else n) } := by
      unfold process_note_delete
      rw [h]
    rw [hred]
    exact find?_map_update _
      (fun n => { n with deleted_at := some (pd.getD now), server_timestamp := now })
      (fun a ha => ha) s.notes h
  · intro now s uid nid pd h
    unfold process_note_delete
    rw [h]
  · intro es ks now s uid nid pd
    rfl

theorem C3_note_delete_no_lww_witness :
    c3_store.notes.find? (fun n => n.id == "N3" && n.user_id == "u") = some c3_note ∧
    (process_note_delete 99 c3_store "u" "N3" (some 30000)).notes.find?
        (fun n => n.id == "N3" && n.user_id == "u") =
      some { c3_note with deleted_at := some 30000, server_timestamp := 99 } :=
  ⟨by decide,
    C3_note_delete_no_lww.1 99 c3_store "u" "N3" (some 30000) c3_note (by decide)⟩

/-- C5 counterexample: the incoming reflection update carries
`updated_at = 72000 ≤ 79200` (the stored value), yet the stored content is
replaced by "new" — `process_reflection_insert` performs no LWW comparison,
contradicting the claim that the store stays unchanged. -/
theorem C5_reflection_counterexample :
    (c5_payload.updated_at ≤ c5_reflection.updated_at) ∧
    ((process_reflection_insert c5_store "u" c5_payload).reflections.find?
        (fun r => r.user_id == "u" && r.date == "2025-01-21")).map
      (fun r => (r.content, r.updated_at)) = some ("new", 72000) := by
  constructor
  · decide
  · decide

/-- C5 amended: a reflection insert/update against an existing
`(user_id, date)` row unconditionally overwrites its `content` and
`updated_at` with the payload values, whatever the timestamps, and the item
is reported success; only a missing row leads to a fresh insert. -/
theorem C5_reflection_no_lww :
    (∀ (s : Store) (uid : String) (p : ReflectionPayload) (ex : Reflection),
      s.reflections.find? (fun r => r.user_id == uid && r.date == p.date) = some ex →
      (process_reflection_insert s uid p).reflections.find?
          (fun r => r.user_id == uid && r.date == p.date) =
        some { ex with content := p.content, updated_at := p.updated_at }) ∧
    (∀ (embed_svc : String → Option (List ℚ)) (kw_svc : String → List String)
       (now : Int) (s : Store) (uid eid : String) (p : ReflectionPayload),
      process_change embed_svc kw_svc now s uid (.reflectionUpdate eid p) =
        (process_reflection_insert s uid p, true) ∧
      process_change embed_svc kw_svc now s uid (.reflectionInsert eid p) =
        (process_reflection_insert s uid p, true)) := by
  constructor
  · intro s uid p ex h
    have hred : process_reflection_insert s uid p =
        { s with reflections := s.reflections.map (fun r =>
            if r.user_id == uid && r.date == p.date then
              { r with content := p.content, updated_at := p.updated_at }
            else r) } := by
      unfold process_reflection_insert
      rw [h]
    rw [hred]
    exact find?_map_update _
      (fun r => { r with content := p.content, updated_at := p.updated_at })
      (fun a ha => ha) s.reflections h
  · intro es ks now s uid eid p
    exact ⟨rfl, rfl⟩

theorem C5_reflection_no_lww_witness :
    c5_store.reflections.find?
        (fun r => r.user_id == "u" && r.date == c5_payload.date) = some c5_reflection ∧
    (process_reflection_insert c5_store "u" c5_payload).reflections.find?
        (fun r => r.user_id == "u" && r.date == c5_payload.date) =
      some { c5_reflection with content := "new", updated_at := 72000 } :=
  ⟨by decide, C5_reflection_no_lww.1 c5_store "u" c5_payload c5_reflection (by decide)⟩

/-- C4 failing input, evaluated on the code: `process_note_insert` looks the
note up by `Note.id == entity_id` with NO user filter (sync.py line 73), so
a push by authenticated user "A" of a note update whose entity id names B's
note wins LWW against B's row and overwrites B's body, with the item
reported success.  Cross-user write through push is possible. -/
theorem C4_cross_user_write :
    c4_note_b.user_id = "B" ∧
    (process_change no_embed no_keywords 9 c4_store "A"
        (.noteUpdate "n1" c4_payload)).2 = true ∧
    ((process_change no_embed no_keywords 9 c4_store "A"
        (.noteUpdate "n1" c4_payload)).1.notes.find? (fun n => n.id == "n1")).map
      (fun n => (n.user_id, n.body)) = some ("B", "overwritten by A") := by
  refine ⟨by decide, by decide, by decide⟩

/-- C6 counterexample: pulling with a null checkpoint at server time 100
returns exactly one row, whose `server_timestamp` is 5, yet the response's
`new_checkpoint` is 100, the wall clock of `generate_checkpoint()` — not
the maximum `server_timestamp` observed across returned rows. -/
theorem C6_new_checkpoint_counterexample :
    ((pull_sync c6_store "u" none 100).changes.map (fun d => d.server_timestamp)) = [5] ∧
    (pull_sync c6_store "u" none 100).new_checkpoint = 100 ∧
    (100 : Int) ≠ 5 := by
  refine ⟨by decide, by decide, by decide⟩

/-- C6 amended: the pull response's `new_checkpoint` is
`generate_checkpoint()` — the server's current wall clock when the response
is built — independent of the returned rows and of the input checkpoint. -/
theorem C6_new_checkpoint_is_wall_clock :
    ∀ (s : Store) (user_id : String) (checkpoint : Option Int) (now : Int),
      (pull_sync s user_id checkpoint now).new_checkpoint = generate_checkpoint now := by
  intro s u cp now
  rfl

/-- C7 counterexample: the note page cap (100) is saturated, yet `has_more`
is false because the code tests `len(changes) >= 300` over the combined
list, not per-type saturation. -/
theorem C7_has_more_counterexample :
    (pull_notes c7_store "u" none).length = 100 ∧
    (pull_sync c7_store "u" none 1000).has_more = false := by
  refine ⟨by decide, by decide⟩

/-- C7 amended: `has_more` is `len(changes) >= 300`, which — because each
per-type page is capped at 100 — is true exactly when ALL THREE per-type
caps are saturated at once; a pull returning 100 notes but fewer than 100
relations or reflections reports `has_more = false`. -/
theorem C7_has_more_iff_all_caps :
    ∀ (s : Store) (user_id : String) (checkpoint : Option Int) (now : Int),
      (pull_sync s user_id checkpoint now).has_more = true ↔
        ((pull_notes s user_id checkpoint).length = 100 ∧
         (pull_relations s user_id checkpoint).length = 100 ∧
         (pull_reflections s user_id checkpoint).length = 100) := by
  intro s u cp now
  have h1 : (pull_notes s u cp).length ≤ 100 := by
    unfold pull_notes
    simp
  have h2 : (pull_relations s u cp).length ≤ 100 := by
    unfold pull_relations
    simp
  have h3 : (pull_reflections s u cp).length ≤ 100 := by
    unfold pull_reflections
    simp
  show (decide (300 ≤ ((pull_notes s u cp).map note_to_delta
      ++ (pull_relations s u cp).map relation_to_delta
      ++ (pull_reflections s u cp).map reflection_to_delta).length) = true) ↔ _
  rw [decide_eq_true_iff]
  simp only [List.length_append, List.length_map]
  omega

/-- C8: every relation delta of any pull response has `operation = upsert`
(there is no relation tombstone), and after a push hard-deletes a relation
owned by the pushing user, no pull response over the resulting store — for
any requesting user and any checkpoint — contains a relation delta with the
deleted id. -/
theorem C8_relation_deltas_upsert_only :
    (∀ (s : Store) (u : String) (cp : Option Int) (now : Int),
      (pull_sync s u cp now).changes.filter
        (fun d => d.entity_type == "relation" && !(d.operation == "upsert")) = []) ∧
    (∀ (s : Store) (uid rid : String) (r : Relation),
      s.relations.find? (fun x => x.id == rid) = some r →
      (s.notes.find? (fun n => n.id == r.from_note_id && n.user_id == uid)).isSome = true →
      ∀ (u : String) (cp : Option Int) (now : Int),
        (pull_sync (process_relation_delete s uid rid) u cp now).changes.filter
          (fun d => d.entity_type == "relation" && d.entity_id == rid) = []) := by
  constructor
  · intro s u cp now
    rw [List.filter_eq_nil_iff]
    intro d hd
    simp only [pull_sync, List.mem_append, List.mem_map] at hd
    rcases hd with (⟨n, hn, rfl⟩ | ⟨x, hx, rfl⟩) | ⟨x, hx, rfl⟩
    · unfold note_to_delta
      split <;> simp
    · simp [relation_to_delta]
    · simp [reflection_to_delta]
  · intro s uid rid r h1 h2 u cp now
    have hrel : (process_relation_delete s uid rid).relations =
        s.relations.filter (fun x => !(x.id == rid)) := by
      unfold process_relation_delete
      rw [h1]
      simp [h2]
    rw [List.filter_eq_nil_iff]
    intro d hd
    simp only [pull_sync, List.mem_append, List.mem_map] at hd
    rcases hd with (⟨n, hn, rfl⟩ | ⟨x, hx, rfl⟩) | ⟨x, hx, rfl⟩
    · unfold note_to_delta
      split <;> simp
    · unfold pull_relations at hx
      have hx2 := (List.mem_insertionSort _).mp (List.take_subset _ _ hx)
      rw [hrel] at hx2
      have hx3 := List.mem_filter.mp ((List.mem_filter.mp hx2).1)
      have hxid : ¬(x.id == rid) = true := by
        have := hx3.2
        simp at this ⊢
        exact this
      simp [relation_to_delta]
      intro hcontra
      exact absurd (by simp [hcontra]) hxid
    · simp [reflection_to_delta]

theorem C8_relation_deltas_upsert_only_witness :
    (c8_store.relations.find? (fun x => x.id == "r1") = some c8_rel ∧
      (c8_store.notes.find?
        (fun n => n.id == c8_rel.from_note_id && n.user_id == "u")).isSome = true) ∧
    (pull_sync (process_relation_delete c8_store "u" "r1") "u" none 5).changes.filter
      (fun d => d.entity_type == "relation" && d.entity_id == "r1") = [] :=
  ⟨⟨by decide, by decide⟩,
    C8_relation_deltas_upsert_only.2 c8_store "u" "r1" c8_rel
      (by decide) (by decide) "u" none 5⟩

set_option maxRecDepth 10000 in
/-- C9 counterexample: both candidates score 0.6·0.8 + 0.1·1 = 0.58; the
sort key of `get_recommendations` is the score alone and the sort is
stable, so the output keeps iteration order ["b", "a"] — violating the
claimed tie-break by id ascending. -/
theorem C9_tie_break_counterexample :
    (get_recommendations texp_const_one c9_target c9_cands 10).map
      (fun r => (r.note_id, r.score)) = [("b", 29/50), ("a", 29/50)] ∧
    ¬ List.Pairwise rec_sort_spec
      (get_recommendations texp_const_one c9_target c9_cands 10) := by
  have hcomp : get_recommendations texp_const_one c9_target c9_cands 10 =
      [{ note_id := "b", body_preview := "x", score := 29/50,
         reason := "내용이 매우 유사합니다 | 최근 작성된 메모",
         created_at := 0, common_keywords := [] },
       { note_id := "a", body_preview := "y", score := 29/50,
         reason := "내용이 매우 유사합니다 | 최근 작성된 메모",
         created_at := 0, common_keywords := [] }] := by
    unfold get_recommendations score_candidate c9_cands c9_target texp_const_one
    norm_num [calculate_keyword_similarity, calculate_hybrid_score, common_keywords_of,
      generate_recommendation_reason, List.insertionSort, List.orderedInsert,
      List.filterMap]
    refine ⟨⟨by decide, by decide⟩, by decide, by decide⟩
  rw [hcomp]
  constructor
  · norm_num
  · intro hpair
    have h1 := List.rel_of_pairwise_cons hpair (List.mem_cons_self _ _)
    rcases h1 with hlt | ⟨_, hcr | ⟨_, hid⟩⟩
    · exact absurd hlt (by norm_num)
    · exact absurd hcr (by norm_num)
    · exact absurd hid (by decide)

theorem calculate_keyword_similarity_nonneg (a b : List String) :
    0 ≤ calculate_keyword_similarity a b := by
  unfold calculate_keyword_similarity
  split
  · exact le_refl 0
  · split
    · exact le_refl 0
    · positivity

theorem calculate_keyword_similarity_le_one (a b : List String) :
    calculate_keyword_similarity a b ≤ 1 := by
  unfold calculate_keyword_similarity
  split
  · exact zero_le_one
  · split
    · exact zero_le_one
    · rename_i hne hu
      rw [div_le_one (by exact_mod_cast Nat.pos_of_ne_zero hu)]
      exact_mod_cast Finset.card_le_card Finset.inter_subset_union

/-- C9 amended: every returned score lies in `[0.3, 1]` (hence in `[0, 1]`)
— the threshold filter bounds it below and the weight sum bounds it above
given component scores in range — and the returned list is sorted by score
descending (non-strictly); candidates with equal scores keep their
iteration order (the sort is stable), with NO tie-break on `created_at` or
id.  The hypotheses state the ranges the source guarantees for the injected
components: pgvector cosine similarity is at most 1 and `exp` of a
non-positive argument lies in `[0, 1]`. -/
theorem C9_recommendations_sorted_by_score :
    ∀ (texp : Int → Int → ℚ) (target : TargetInfo) (cands : List Candidate) (k : Nat),
      (∀ c ∈ cands, c.embedding_sim ≤ 1) →
      (∀ t c : Int, 0 ≤ texp t c ∧ texp t c ≤ 1) →
      (∀ r ∈ get_recommendations texp target cands k,
        3/10 ≤ r.score ∧ r.score ≤ 1) ∧
      List.Pairwise (fun a b => b.score ≤ a.score)
        (get_recommendations texp target cands k) := by
  intro texp target cands k hse htexp
  constructor
  · intro r hr
    unfold get_recommendations at hr
    have hr1 : r ∈ cands.filterMap (score_candidate texp target) :=
      (List.mem_insertionSort _).mp (List.take_subset _ _ hr)
    obtain ⟨c, hc, hsc⟩ := List.mem_filterMap.mp hr1
    unfold score_candidate at hsc
    by_cases hlt : calculate_hybrid_score c.embedding_sim
        (calculate_keyword_similarity target.keywords c.keywords)
        (texp target.created_at c.created_at) < 3/10
    · rw [if_pos hlt] at hsc
      exact absurd hsc (by simp)
    · rw [if_neg hlt] at hsc
      have hr2 := Option.some.inj hsc
      have hscore : r.score = calculate_hybrid_score c.embedding_sim
          (calculate_keyword_similarity target.keywords c.keywords)
          (texp target.created_at c.created_at) := by
        rw [← hr2]
      constructor
      · rw [hscore]
        exact not_lt.mp hlt
      · rw [hscore]
        unfold calculate_hybrid_score
        have h1 : (6:ℚ)/10 * c.embedding_sim ≤ 6/10 * 1 :=
          mul_le_mul_of_nonneg_left (hse c hc) (by norm_num)
        have h2 : (3:ℚ)/10 * calculate_keyword_similarity target.keywords c.keywords
            ≤ 3/10 * 1 :=
          mul_le_mul_of_nonneg_left
            (calculate_keyword_similarity_le_one target.keywords c.keywords) (by norm_num)
        have h3 : (1:ℚ)/10 * texp target.created_at c.created_at ≤ 1/10 * 1 :=
          mul_le_mul_of_nonneg_left (htexp target.created_at c.created_at).2 (by norm_num)
        linarith
  · unfold get_recommendations
    haveI h_total : IsTotal RecommendedNote (fun a b => b.score ≤ a.score) :=
      ⟨fun a b => le_total b.score a.score⟩
    haveI h_trans : IsTrans RecommendedNote (fun a b => b.score ≤ a.score) :=
      ⟨fun a b c hab hbc => le_trans hbc hab⟩
    exact List.Pairwise.sublist (List.take_sublist _ _)
      (List.sorted_insertionSort (fun a b : RecommendedNote => b.score ≤ a.score) _)

set_option maxRecDepth 10000 in
theorem C9_recommendations_sorted_by_score_witness :
    ((∀ c ∈ c9_cands, c.embedding_sim ≤ 1) ∧
      (∀ t c : Int, 0 ≤ texp_const_one t c ∧ texp_const_one t c ≤ 1)) ∧
    ((∀ r ∈ get_recommendations texp_const_one c9_target c9_cands 10,
        3/10 ≤ r.score ∧ r.score ≤ 1) ∧
      List.Pairwise (fun a b => b.score ≤ a.score)
        (get_recommendations texp_const_one c9_target c9_cands 10)) :=
  ⟨⟨by intro c hc; fin_cases hc <;> norm_num [c9_cands],
    by intro t c; norm_num [texp_const_one]⟩,
    C9_recommendations_sorted_by_score texp_const_one c9_target c9_cands 10
      (by intro c hc; fin_cases hc <;> norm_num [c9_cands])
      (by intro t c; norm_num [texp_const_one])⟩

/-- C10 counterexample: "1999-05" matches the route pattern and parses
successfully to year 1999 — outside the claimed bound [2000, 2100] — with
no validation error: `_parse_week_key` checks only the week number. -/
theorem C10_week_key_counterexample :
    week_key_pattern_ok "1999-05" = true ∧
    (parse_week_key "1999-05").toOption = some (1999, 5) ∧
    ¬((2000 : Int) ≤ 1999) := by
  refine ⟨by decide, by decide, by decide⟩

/-- C10 amended: `_parse_week_key` validates only the shape (exactly two
dash-separated integer parts) and the week bound `1 ≤ week ≤ 53`; every
successful parse satisfies the week bound, an out-of-range week such as
"2024-00" or "2024-54" fails with the validation error (surfaced as HTTP
400 by `get_weekly_report`), but the year is NOT range-checked: any
four-digit year passes the route pattern and the parser. -/
theorem C10_week_key_validation :
    (∀ (s : String) (y w : Int),
      (parse_week_key s).toOption = some (y, w) → 1 ≤ w ∧ w ≤ 53) ∧
    (parse_week_key "2024-00").toOption = none ∧
    (parse_week_key "2024-54").toOption = none ∧
    (parse_week_key "1999-05").toOption = some (1999, 5) := by
  refine ⟨?_, by decide, by decide, by decide⟩
  intro s y w h
  unfold parse_week_key at h
  split at h
  · split at h
    · split at h
      · rename_i year week hcond
        simp only [Except.toOption, Option.some.injEq, Prod.mk.injEq] at h
        obtain ⟨rfl, rfl⟩ := h
        exact hcond
      · exact absurd h (by simp [Except.toOption])
    · exact absurd h (by simp [Except.toOption])
  · exact absurd h (by simp [Except.toOption])

theorem C10_week_key_validation_witness :
    (parse_week_key "1999-05").toOption = some (1999, 5) ∧
      (1 ≤ (5 : Int) ∧ (5 : Int) ≤ 53) :=
  ⟨by decide, C10_week_key_validation.1 "1999-05" 1999 5 (by decide)⟩
